import Mathlib

/-!
Verification of the CrimsonForge Overseer aggregation-and-alerting pipeline.

This file is a shallow embedding of the monitoring worker: the adapter
functions (uptime, supabase, sentry, railway, email), the quick health-check
cycle and the morning-briefing cycle from the scheduler. Network effects are
modelled by passing each call outcome as an explicit parameter; a JavaScript
exception is modelled by the JsError type; Promise.allSettled outcomes are
modelled by the PromiseSettled type. The theorems below settle the spec
claims about status derivation, alert classification and fault tolerance.
-/

/-- Health classification used throughout the system
(src/types/index.ts, HealthStatus). -/
inductive HealthStatus where
  | healthy
  | degraded
  | down
  | unknown
deriving DecidableEq, Repr, Fintype

/-- A thrown JavaScript value. isError says whether it is an Error object;
message is its message property (meaningless when isError is false, since
the code only reads message from Error instances). -/
structure JsError where
  isError : Bool
  message : String
deriving DecidableEq, Repr

/-- Embeds the adapter catch clauses:
err instanceof Error ? err.message : the literal Unknown error. -/
def adapterErrMessage (e : JsError) : String :=
  if e.isError then e.message else "Unknown error"

/-- Embeds getResult in the scheduler:
(result.reason as Error)?.message || the literal Unknown error.
A non-Error reason has no message property, and an empty message is falsy. -/
def rejectionMessage (e : JsError) : String :=
  if e.isError && e.message != "" then e.message else "Unknown error"

/-- The uniform envelope every adapter returns
(src/types/index.ts, ToolResult). -/
structure ToolResult (T : Type) where
  tool : String
  success : Bool
  timestamp : String
  data : T
  error : Option String := none
deriving DecidableEq, Repr

/-- Per-endpoint uptime payload (src/types/index.ts, UptimeData). -/
structure UptimeData where
  url : String
  status : HealthStatus
  responseMs : Option Nat
  statusCode : Option Nat
deriving DecidableEq, Repr

/-- An HTTP response as seen by fetch: ok is the 2xx flag, status the code. -/
structure HttpResponse where
  ok : Bool
  status : Nat
deriving DecidableEq, Repr

/-- pingEndpoint in src/tools/uptime.ts: a returned response is classified
healthy when res.ok and degraded otherwise, with elapsed time and code. -/
def pingEndpoint (url : String) (res : HttpResponse) (elapsedMs : Nat) : UptimeData :=
  { url := url
    status := if res.ok then .healthy else .degraded
    responseMs := some elapsedMs
    statusCode := some res.status }

/-- Outcome of the at most two fetch attempts for one endpoint: each attempt
either returns a response after some elapsed time, or throws (none). The
second attempt is only consulted when the first threw. -/
structure EndpointOutcome where
  url : String
  first : Option (HttpResponse × Nat)
  second : Option (HttpResponse × Nat)
deriving DecidableEq, Repr

/-- checkEndpoint in src/tools/uptime.ts: try pingEndpoint; on a throw wait
the fixed backoff and retry once; when the retry also throws, classify the
endpoint down with no response data. -/
def checkEndpoint (o : EndpointOutcome) : UptimeData :=
  match o.first with
  | some (res, t) => pingEndpoint o.url res t
  | none =>
    match o.second with
    | some (res, t) => pingEndpoint o.url res t
    | none => { url := o.url, status := .down, responseMs := none, statusCode := none }

/-- runUptimeCheck in src/tools/uptime.ts: Promise.all over the endpoints
gives the success envelope; the catch clause (unreachable in practice since
checkEndpoint swallows every fault) gives the failure envelope with an
empty data array. -/
def runUptimeCheck (outcome : Except JsError (List EndpointOutcome))
    (ts : String) : ToolResult (List UptimeData) :=
  match outcome with
  | .ok endpoints =>
    { tool := "uptime", success := true, timestamp := ts
      data := endpoints.map checkEndpoint, error := none }
  | .error e =>
    { tool := "uptime", success := false, timestamp := ts
      data := [], error := some (adapterErrMessage e) }

/-- A shop flagged as inactive (src/types/index.ts, SilentShop). -/
structure SilentShop where
  shopId : String
  shopName : String
  lastActivityAt : Option String
  daysSilent : Nat
deriving DecidableEq, Repr

/-- Supabase payload (src/types/index.ts, SupabaseData). -/
structure SupabaseData where
  connectionStatus : HealthStatus
  totalShops : Nat
  activeShopsLast24h : Nat
  ticketsCreatedLast24h : Nat
  aiSessionsLast24h : Nat
  silentShops : List SilentShop
deriving DecidableEq, Repr

/-- The metrics the supabase queries yield on the success path of
runSupabaseCheck; the row-to-SilentShop mapping is abstracted to its
resulting list, which is all the pipeline consumes. -/
structure SupabaseMetrics where
  totalShops : Nat
  activeShopsLast24h : Nat
  ticketsCreatedLast24h : Nat
  aiSessionsLast24h : Nat
  silentShops : List SilentShop
deriving DecidableEq, Repr

/-- runSupabaseCheck in src/tools/supabase.ts: when every query settles the
envelope is success with connectionStatus healthy; when anything throws
(e.g. the connection check) the catch clause returns success false with a
payload whose connectionStatus is down and zeroed metrics. -/
def runSupabaseCheck (outcome : Except JsError SupabaseMetrics)
    (ts : String) : ToolResult SupabaseData :=
  match outcome with
  | .ok m =>
    { tool := "supabase", success := true, timestamp := ts
      data := { connectionStatus := .healthy, totalShops := m.totalShops
                activeShopsLast24h := m.activeShopsLast24h
                ticketsCreatedLast24h := m.ticketsCreatedLast24h
                aiSessionsLast24h := m.aiSessionsLast24h
                silentShops := m.silentShops }
      error := none }
  | .error e =>
    { tool := "supabase", success := false, timestamp := ts
      data := { connectionStatus := .down, totalShops := 0
                activeShopsLast24h := 0, ticketsCreatedLast24h := 0
                aiSessionsLast24h := 0, silentShops := [] }
      error := some (adapterErrMessage e) }

/-- Raw issue row from the Sentry API (src/tools/sentry.ts). -/
structure SentryIssueRaw where
  id : String
  title : String
  level : String
  count : Nat
  firstSeen : String
  lastSeen : String
  permalink : String
deriving DecidableEq, Repr

/-- Transformed issue (src/types/index.ts, SentryIssue); the level cast
falls back to the literal error on a falsy level string. -/
structure SentryIssue where
  id : String
  title : String
  level : String
  count : Nat
  firstSeen : String
  lastSeen : String
  url : String
deriving DecidableEq, Repr

/-- The issue mapping inside runSentryCheck. -/
def toSentryIssue (issue : SentryIssueRaw) : SentryIssue :=
  { id := issue.id, title := issue.title
    level := if issue.level = "" then "error" else issue.level
    count := issue.count, firstSeen := issue.firstSeen
    lastSeen := issue.lastSeen, url := issue.permalink }

/-- Sentry payload (src/types/index.ts, SentryData). -/
structure SentryData where
  newIssueCount : Nat
  unresolvedCount : Nat
  recentIssues : List SentryIssue
deriving DecidableEq, Repr

/-- runSentryCheck in src/tools/sentry.ts: fetchSentryIssues catches every
fault internally and returns an empty list, so the try body never throws and
the envelope is always a success over the two fetched lists. -/
def runSentryCheck (newIssuesData unresolvedData : List SentryIssueRaw)
    (ts : String) : ToolResult SentryData :=
  { tool := "sentry", success := true, timestamp := ts
    data := { newIssueCount := newIssuesData.length
              unresolvedCount := unresolvedData.length
              recentIssues := (unresolvedData.take 5).map toSentryIssue }
    error := none }

/-- Email payload (src/types/index.ts, EmailData). -/
structure EmailData where
  status : HealthStatus
  unreadCount : Nat
  lastCheckAt : String
deriving DecidableEq, Repr

/-- The three IMAP environment variables read by runEmailCheck; none models
an unset variable. -/
structure EmailConfig where
  imapHost : Option String
  imapUser : Option String
  imapPass : Option String
deriving DecidableEq, Repr

/-- JavaScript falsiness of an optional environment string: unset or empty. -/
def envMissing : Option String → Bool
  | none => true
  | some s => s = ""

/-- runEmailCheck in src/tools/email.ts: placeholder that always reports
success false, with one reason when configuration is missing and another
when it is present but the check is unimplemented. -/
def runEmailCheck (cfg : EmailConfig) (ts : String) : ToolResult EmailData :=
  if envMissing cfg.imapHost || envMissing cfg.imapUser || envMissing cfg.imapPass then
    { tool := "email", success := false, timestamp := ts
      data := { status := .unknown, unreadCount := 0, lastCheckAt := ts }
      error := some "Email configuration not provided. Set IMAP_HOST, IMAP_USER, IMAP_PASS in environment." }
  else
    { tool := "email", success := false, timestamp := ts
      data := { status := .unknown, unreadCount := 0, lastCheckAt := ts }
      error := some "Email check not yet implemented" }

/-- Railway payload (src/types/index.ts, RailwayData). -/
structure RailwayData where
  status : HealthStatus
  latestDeploymentStatus : Option String
  latestDeploymentAt : Option String
deriving DecidableEq, Repr

/-- The deployment node returned by the Railway GraphQL API. -/
structure RailwayDeploymentNode where
  id : String
  status : String
  createdAt : String
deriving DecidableEq, Repr

namespace Railway1

/-- Outcome of the fetch inside the first revision of fetchRailwayStatus in
src/tools/railway.ts: response carries the optional first deployment node of
a parsed, error-free reply; thrown covers a network fault, a non-ok HTTP
status, a JSON parse failure and a GraphQL errors field, all of which throw
inside the try block. -/
inductive FetchOutcome where
  | response (node : Option RailwayDeploymentNode)
  | thrown (e : JsError)
deriving DecidableEq, Repr

/-- First revision of fetchRailwayStatus: a clean reply is healthy exactly
when the node status is the literal SUCCESS (degraded otherwise, including a
missing node); every caught fault becomes payload status down. The two
deployment fields fall back to null on a falsy (missing or empty) value. -/
def fetchRailwayStatus : FetchOutcome → RailwayData
  | .response node =>
    { status := if node.map (fun n => n.status) = some "SUCCESS" then .healthy else .degraded
      latestDeploymentStatus := node.bind (fun n => if n.status = "" then none else some n.status)
      latestDeploymentAt := node.bind (fun n => if n.createdAt = "" then none else some n.createdAt) }
  | .thrown _ =>
    { status := .down, latestDeploymentStatus := none, latestDeploymentAt := none }

/-- First revision of runRailwayCheck: fetchRailwayStatus catches every
fault itself, so the wrapping try never reaches its catch clause and the
envelope is always a success over the fetched record. -/
def runRailwayCheck (o : FetchOutcome) (ts : String) : ToolResult RailwayData :=
  { tool := "railway", success := true, timestamp := ts
    data := fetchRailwayStatus o, error := none }

end Railway1

namespace Railway2

/-- resolveStatus in the second revision of src/tools/railway.ts. -/
def resolveStatus (deploymentStatus : String) : HealthStatus :=
  if deploymentStatus = "SUCCESS" || deploymentStatus = "ACTIVE" then .healthy
  else if deploymentStatus = "FAILED" || deploymentStatus = "CRASHED" then .down
  else .degraded

/-- Outcome of the HTTP exchange inside the second revision of
fetchRailwayStatus: a non-ok HTTP status, an unparsable body, a GraphQL
errors field, or a parsed reply with its optional deployment node. A thrown
fault (fetch or body read rejecting) is not listed here: it propagates to
the caller. -/
inductive FetchOutcome where
  | httpError (status : Nat) (body : String)
  | parseError (body : String)
  | graphqlErrors (messages : List String)
  | parsed (node : Option RailwayDeploymentNode)
deriving DecidableEq, Repr

/-- Second revision of fetchRailwayStatus: every non-throwing fault path and
a missing deployment node return payload status unknown; a present node is
classified by resolveStatus. -/
def fetchRailwayStatus : FetchOutcome → RailwayData
  | .httpError _ _ => { status := .unknown, latestDeploymentStatus := none, latestDeploymentAt := none }
  | .parseError _ => { status := .unknown, latestDeploymentStatus := none, latestDeploymentAt := none }
  | .graphqlErrors _ => { status := .unknown, latestDeploymentStatus := none, latestDeploymentAt := none }
  | .parsed none => { status := .unknown, latestDeploymentStatus := none, latestDeploymentAt := none }
  | .parsed (some d) =>
    { status := resolveStatus d.status
      latestDeploymentStatus := some d.status
      latestDeploymentAt := some d.createdAt }

/-- Second revision of runRailwayCheck: a throw from fetchRailwayStatus is
caught and converted to success false with status unknown; otherwise the
fetched record is wrapped in a success envelope. -/
def runRailwayCheck (o : Except JsError FetchOutcome) (ts : String) : ToolResult RailwayData :=
  match o with
  | .ok r =>
    { tool := "railway", success := true, timestamp := ts
      data := fetchRailwayStatus r, error := none }
  | .error e =>
    { tool := "railway", success := false, timestamp := ts
      data := { status := .unknown, latestDeploymentStatus := none, latestDeploymentAt := none }
      error := some (adapterErrMessage e) }

end Railway2

/-- Alert severity (src/types/index.ts, Alert). -/
inductive Severity where
  | critical
  | warning
  | info
deriving DecidableEq, Repr, Fintype

/-- An alert handed to the notifier (src/types/index.ts, Alert). -/
structure Alert where
  severity : Severity
  tool : String
  message : String
  details : Option String := none
  actionUrl : Option String := none
deriving DecidableEq, Repr

/-- runSilentHealthCheck in src/scheduler.ts, the quick 15-minute cycle,
modelled as the ordered list of alerts it delivers to sendAlert. An uptime
condition fires only when the uptime envelope itself succeeded and some
endpoint is classified down (the data array is always an array in the
model, matching the Array.isArray guard); a railway condition fires only
when that envelope succeeded and its payload status is down. When neither
fires the cycle sends nothing. -/
def runSilentHealthCheck (uptimeResult : ToolResult (List UptimeData))
    (railwayResult : ToolResult RailwayData) (railwayProjectId : String) : List Alert :=
  let isUptimeDown :=
    uptimeResult.success && uptimeResult.data.any (fun e => e.status == HealthStatus.down)
  let isRailwayDown :=
    railwayResult.success && railwayResult.data.status == HealthStatus.down
  if isUptimeDown || isRailwayDown then
    (if isUptimeDown then
      let downEndpoints := String.intercalate ", "
        ((uptimeResult.data.filter (fun e => e.status == HealthStatus.down)).map (fun e => e.url))
      [{ severity := .critical, tool := "uptime", message := "Services are DOWN"
         details := some downEndpoints }]
     else [])
    ++
    (if isRailwayDown then
      [{ severity := .critical, tool := "railway", message := "Railway deployment is DOWN"
         actionUrl := some ("https://railway.app/project/" ++ railwayProjectId) }]
     else [])
  else []

/-- One outcome of Promise.allSettled: a fulfilled value or a rejection
reason. -/
inductive PromiseSettled (T : Type) where
  | fulfilled (value : T)
  | rejected (reason : JsError)
deriving DecidableEq, Repr

/-- The shape getResult in src/scheduler.ts actually produces: on a
rejection it fabricates an object with success false and an error but no
data property, so data is optional at this level. -/
structure SettledResult (T : Type) where
  success : Bool
  data : Option T
  error : Option String
deriving DecidableEq, Repr

/-- getResult in src/scheduler.ts. -/
def getResult {T : Type} (result : PromiseSettled (ToolResult T)) : SettledResult T :=
  match result with
  | .rejected reason =>
    { success := false, data := none, error := some (rejectionMessage reason) }
  | .fulfilled value =>
    { success := value.success, data := some value.data, error := value.error }

/-- The uptime entry of the statuses array in runMorningBriefing: healthy
exactly when every endpoint in the payload is healthy, degraded otherwise —
including an absent payload, whose optional chaining yields a falsy
undefined. -/
def uptimeVote (r : SettledResult (List UptimeData)) : HealthStatus :=
  match r.data with
  | some ds => if ds.all (fun e => e.status == HealthStatus.healthy) then .healthy else .degraded
  | none => .degraded

/-- The supabase entry of the statuses array: the payload connectionStatus,
or unknown when the payload is absent (connectionStatus is never the empty
string, so the falsy fallback only triggers on a missing payload). -/
def supabaseVote (r : SettledResult SupabaseData) : HealthStatus :=
  (r.data.map (fun d => d.connectionStatus)).getD .unknown

/-- The railway entry of the statuses array: the payload status, or unknown
when the payload is absent. -/
def railwayVote (r : SettledResult RailwayData) : HealthStatus :=
  (r.data.map (fun d => d.status)).getD .unknown

/-- Lines 106 to 114 of src/scheduler.ts: filter unknown out of the three
votes, then down dominates, then degraded, else healthy. -/
def overallFromVotes (uv sv rv : HealthStatus) : HealthStatus :=
  let statuses := [uv, sv, rv].filter (fun s => s != HealthStatus.unknown)
  let hasDown := statuses.contains HealthStatus.down
  let hasDegraded := statuses.contains HealthStatus.degraded
  if hasDown then .down else if hasDegraded then .degraded else .healthy

/-- The sentry alert rule of runMorningBriefing. The condition embeds the
JavaScript parse of the source line: newIssueCount ?? (0 > 0), which is the
count when the payload exists (truthy exactly when nonzero) and false
otherwise; the envelope success flag is not consulted. -/
def sentryAlertList (r : SettledResult SentryData) (sentryOrg : String) : List Alert :=
  match r.data with
  | some d =>
    if d.newIssueCount != 0 then
      [{ severity := .warning, tool := "sentry"
         message := toString d.newIssueCount ++ " new error issues detected"
         actionUrl := some ("https://sentry.io/organizations/" ++ sentryOrg ++ "/issues/") }]
    else []
  | none => []

/-- The silent-shops alert rule of runMorningBriefing: an info alert when
the payload lists at least one silent shop (an absent payload defaults to
the empty list); the envelope success flag is not consulted. -/
def supabaseAlertList (r : SettledResult SupabaseData) : List Alert :=
  let silentShops := (r.data.map (fun d => d.silentShops)).getD []
  if silentShops.length > 0 then
    [{ severity := .info, tool := "supabase"
       message := toString silentShops.length ++ " shops inactive for 3+ days" }]
  else []

/-- The composed briefing (src/types/index.ts, MorningBriefing), with the
five slots at the settled shape the scheduler actually stores in them. -/
structure MorningBriefing where
  timestamp : String
  overallStatus : HealthStatus
  uptime : SettledResult (List UptimeData)
  supabase : SettledResult SupabaseData
  sentry : SettledResult SentryData
  railway : SettledResult RailwayData
  email : SettledResult EmailData
  alerts : List Alert
deriving DecidableEq, Repr

/-- runMorningBriefing in src/scheduler.ts, modelled as the briefing value
it composes and hands to sendBriefing: settle the five envelopes through
getResult, derive overallStatus from the three status-bearing sources, and
build the alert list from the sentry and silent-shops rules. -/
def runMorningBriefing (uptime : PromiseSettled (ToolResult (List UptimeData)))
    (supabase : PromiseSettled (ToolResult SupabaseData))
    (sentry : PromiseSettled (ToolResult SentryData))
    (railway : PromiseSettled (ToolResult RailwayData))
    (email : PromiseSettled (ToolResult EmailData))
    (ts sentryOrg : String) : MorningBriefing :=
  let uptimeResult := getResult uptime
  let supabaseResult := getResult supabase
  let sentryResult := getResult sentry
  let railwayResult := getResult railway
  let emailResult := getResult email
  { timestamp := ts
    overallStatus := overallFromVotes (uptimeVote uptimeResult)
      (supabaseVote supabaseResult) (railwayVote railwayResult)
    uptime := uptimeResult
    supabase := supabaseResult
    sentry := sentryResult
    railway := railwayResult
    email := emailResult
    alerts := sentryAlertList sentryResult sentryOrg ++ supabaseAlertList supabaseResult }

/-- Joining a one-element list inserts no separator. -/
theorem intercalate_singleton (s x : String) : String.intercalate s [x] = x := rfl

/-- C5. Quick-path silence: when the uptime envelope reports every endpoint
healthy and the railway payload status is healthy, the quick cycle delivers
nothing to the notifier. -/
theorem runSilentHealthCheck_silent_when_all_healthy
    (u : ToolResult (List UptimeData)) (r : ToolResult RailwayData) (pid : String)
    (hu : u.data.all (fun e => e.status == HealthStatus.healthy) = true)
    (hr : r.data.status = HealthStatus.healthy) :
    runSilentHealthCheck u r pid = [] := by
  have h1 : u.data.any (fun e => e.status == HealthStatus.down) = false := by
    rw [List.any_eq_false]
    intro e he
    have h2 := List.all_eq_true.mp hu e he
    simp only [beq_iff_eq] at h2 ⊢
    rw [h2]
    simp
  simp [runSilentHealthCheck, h1, hr]

/-- Witness for C5 at a concrete all-healthy input. -/
theorem runSilentHealthCheck_silent_when_all_healthy_witness :
    (({ tool := "uptime", success := true, timestamp := "t"
        data := [{ url := "https://crimsonforge.pro", status := HealthStatus.healthy
                   responseMs := some 187, statusCode := some 200 }]
        error := none } : ToolResult (List UptimeData)).data.all
      (fun e => e.status == HealthStatus.healthy) = true)
    ∧ (({ tool := "railway", success := true, timestamp := "t"
          data := { status := HealthStatus.healthy, latestDeploymentStatus := some "SUCCESS"
                    latestDeploymentAt := some "2026-02-24T08:00:00Z" }
          error := none } : ToolResult RailwayData).data.status = HealthStatus.healthy)
    ∧ runSilentHealthCheck
        { tool := "uptime", success := true, timestamp := "t"
          data := [{ url := "https://crimsonforge.pro", status := HealthStatus.healthy
                     responseMs := some 187, statusCode := some 200 }]
          error := none }
        { tool := "railway", success := true, timestamp := "t"
          data := { status := HealthStatus.healthy, latestDeploymentStatus := some "SUCCESS"
                    latestDeploymentAt := some "2026-02-24T08:00:00Z" }
          error := none } "proj" = [] :=
  ⟨by decide, rfl,
    runSilentHealthCheck_silent_when_all_healthy _ _ "proj" (by decide) rfl⟩

/-- C6. Quick-path escalation: when the uptime envelope itself succeeded,
exactly one endpoint is classified down and the railway payload status is
not down, the quick cycle delivers exactly one critical alert whose details
field names that endpoint. -/
theorem runSilentHealthCheck_one_down_one_alert
    (u : ToolResult (List UptimeData)) (r : ToolResult RailwayData) (pid : String)
    (ep : UptimeData)
    (hsucc : u.success = true)
    (hdown : u.data.filter (fun e => e.status == HealthStatus.down) = [ep])
    (hrail : r.data.status ≠ HealthStatus.down) :
    runSilentHealthCheck u r pid =
      [{ severity := .critical, tool := "uptime", message := "Services are DOWN"
         details := some ep.url, actionUrl := none }] := by
  have hmem : ep ∈ u.data.filter (fun e => e.status == HealthStatus.down) := by
    rw [hdown]; exact List.mem_singleton.mpr rfl
  obtain ⟨hin, hpd⟩ := List.mem_filter.mp hmem
  have hany : u.data.any (fun e => e.status == HealthStatus.down) = true :=
    List.any_eq_true.mpr ⟨ep, hin, hpd⟩
  have hrb : (r.data.status == HealthStatus.down) = false := by
    simp only [beq_eq_false_iff_ne, ne_eq]
    exact hrail
  simp [runSilentHealthCheck, hsucc, hany, hrb, hdown, intercalate_singleton]

/-- Witness for C6 at a concrete input with one down endpoint. -/
theorem runSilentHealthCheck_one_down_one_alert_witness :
    (({ tool := "uptime", success := true, timestamp := "t"
        data := [{ url := "https://crimsonforge.pro", status := HealthStatus.healthy
                   responseMs := some 90, statusCode := some 200 },
                 { url := "https://api.crimsonforge.pro/health", status := HealthStatus.down
                   responseMs := none, statusCode := none }]
        error := none } : ToolResult (List UptimeData)).data.filter
      (fun e => e.status == HealthStatus.down) =
        [{ url := "https://api.crimsonforge.pro/health", status := HealthStatus.down
           responseMs := none, statusCode := none }])
    ∧ runSilentHealthCheck
        { tool := "uptime", success := true, timestamp := "t"
          data := [{ url := "https://crimsonforge.pro", status := HealthStatus.healthy
                     responseMs := some 90, statusCode := some 200 },
                   { url := "https://api.crimsonforge.pro/health", status := HealthStatus.down
                     responseMs := none, statusCode := none }]
          error := none }
        { tool := "railway", success := true, timestamp := "t"
          data := { status := HealthStatus.healthy, latestDeploymentStatus := some "SUCCESS"
                    latestDeploymentAt := some "2026-02-24T08:00:00Z" }
          error := none } "proj" =
        [{ severity := .critical, tool := "uptime", message := "Services are DOWN"
           details := some "https://api.crimsonforge.pro/health", actionUrl := none }] :=
  ⟨by decide,
    runSilentHealthCheck_one_down_one_alert _ _ "proj"
      { url := "https://api.crimsonforge.pro/health", status := HealthStatus.down
        responseMs := none, statusCode := none }
      rfl (by decide) (by decide)⟩

/-- C7 counterexample. A quick-cycle run whose uptime adapter faulted
(success false) while its payload even lists a down endpoint delivers
nothing — the silent branch is taken exactly as in the all-healthy case —
although the identical payload with success true fires an alert. This
refutes the claim that an indeterminate adapter result is excluded from the
stay-silent decision. -/
theorem runSilentHealthCheck_fault_gives_false_all_clear :
    runSilentHealthCheck
      { tool := "uptime", success := false, timestamp := "t"
        data := [{ url := "https://api.crimsonforge.pro/health", status := HealthStatus.down
                   responseMs := none, statusCode := none }]
        error := some "Unknown error" }
      { tool := "railway", success := true, timestamp := "t"
        data := { status := HealthStatus.healthy, latestDeploymentStatus := some "SUCCESS"
                  latestDeploymentAt := some "2026-02-24T08:00:00Z" }
        error := none } "proj" = []
    ∧ runSilentHealthCheck
        { tool := "uptime", success := true, timestamp := "t"
          data := [{ url := "https://api.crimsonforge.pro/health", status := HealthStatus.down
                     responseMs := none, statusCode := none }]
          error := none }
        { tool := "railway", success := true, timestamp := "t"
          data := { status := HealthStatus.healthy, latestDeploymentStatus := some "SUCCESS"
                    latestDeploymentAt := some "2026-02-24T08:00:00Z" }
          error := none } "proj" ≠ [] := by
  constructor <;> decide

/-- C7 amended. On the quick path an adapter envelope with success false is
treated exactly like a healthy one for that adapter: a faulted uptime
envelope can never fire the uptime alert and the cycle output reduces to
the railway condition alone, and a faulted railway envelope can never fire
the railway alert and the cycle output reduces to the uptime condition
alone — so a fault yields silence unless the other adapter independently
reports down, and never suppresses the other adapter's alert. -/
theorem runSilentHealthCheck_fault_acts_healthy
    (u : ToolResult (List UptimeData)) (r : ToolResult RailwayData) (pid : String) :
    (u.success = false →
      runSilentHealthCheck u r pid =
        (if r.success && (r.data.status == HealthStatus.down) then
          [{ severity := .critical, tool := "railway", message := "Railway deployment is DOWN"
             details := none
             actionUrl := some ("https://railway.app/project/" ++ pid) }]
         else []))
    ∧ (r.success = false →
      runSilentHealthCheck u r pid =
        (if u.success && u.data.any (fun e => e.status == HealthStatus.down) then
          [{ severity := .critical, tool := "uptime", message := "Services are DOWN"
             details := some (String.intercalate ", "
               ((u.data.filter (fun e => e.status == HealthStatus.down)).map (fun e => e.url)))
             actionUrl := none }]
         else [])) := by
  constructor
  · intro h
    cases hb : (r.success && (r.data.status == HealthStatus.down)) <;>
      simp [runSilentHealthCheck, h, hb]
  · intro h
    cases hb : (u.success && u.data.any (fun e => e.status == HealthStatus.down)) <;>
      simp [runSilentHealthCheck, h, hb]

/-- Witness for the amended C7: both directions applied at one concrete
pair of faulted envelopes whose payloads even report down. -/
theorem runSilentHealthCheck_fault_acts_healthy_witness :
    (({ tool := "uptime", success := false, timestamp := "t"
        data := [{ url := "https://api.crimsonforge.pro/health", status := HealthStatus.down
                   responseMs := none, statusCode := none }]
        error := some "Unknown error" } : ToolResult (List UptimeData)).success = false)
    ∧ (({ tool := "railway", success := false, timestamp := "t"
          data := { status := HealthStatus.down, latestDeploymentStatus := none
                    latestDeploymentAt := none }
          error := some "fetch failed" } : ToolResult RailwayData).success = false)
    ∧ runSilentHealthCheck
        { tool := "uptime", success := false, timestamp := "t"
          data := [{ url := "https://api.crimsonforge.pro/health", status := HealthStatus.down
                     responseMs := none, statusCode := none }]
          error := some "Unknown error" }
        { tool := "railway", success := false, timestamp := "t"
          data := { status := HealthStatus.down, latestDeploymentStatus := none
                    latestDeploymentAt := none }
          error := some "fetch failed" } "proj" =
      (if ({ tool := "railway", success := false, timestamp := "t"
             data := { status := HealthStatus.down, latestDeploymentStatus := none
                       latestDeploymentAt := none }
             error := some "fetch failed" } : ToolResult RailwayData).success &&
           (({ tool := "railway", success := false, timestamp := "t"
               data := { status := HealthStatus.down, latestDeploymentStatus := none
                         latestDeploymentAt := none }
               error := some "fetch failed" } : ToolResult RailwayData).data.status
             == HealthStatus.down) then
        [{ severity := .critical, tool := "railway", message := "Railway deployment is DOWN"
           details := none
           actionUrl := some ("https://railway.app/project/" ++ "proj") }]
       else [])
    ∧ runSilentHealthCheck
        { tool := "uptime", success := false, timestamp := "t"
          data := [{ url := "https://api.crimsonforge.pro/health", status := HealthStatus.down
                     responseMs := none, statusCode := none }]
          error := some "Unknown error" }
        { tool := "railway", success := false, timestamp := "t"
          data := { status := HealthStatus.down, latestDeploymentStatus := none
                    latestDeploymentAt := none }
          error := some "fetch failed" } "proj" =
      (if ({ tool := "uptime", success := false, timestamp := "t"
             data := [{ url := "https://api.crimsonforge.pro/health", status := HealthStatus.down
                        responseMs := none, statusCode := none }]
             error := some "Unknown error" } : ToolResult (List UptimeData)).success &&
           (({ tool := "uptime", success := false, timestamp := "t"
               data := [{ url := "https://api.crimsonforge.pro/health", status := HealthStatus.down
                          responseMs := none, statusCode := none }]
               error := some "Unknown error" } : ToolResult (List UptimeData)).data.any
             (fun e => e.status == HealthStatus.down)) then
        [{ severity := .critical, tool := "uptime", message := "Services are DOWN"
           details := some (String.intercalate ", "
             ((({ tool := "uptime", success := false, timestamp := "t"
                  data := [{ url := "https://api.crimsonforge.pro/health", status := HealthStatus.down
                             responseMs := none, statusCode := none }]
                  error := some "Unknown error" } : ToolResult (List UptimeData)).data.filter
                (fun e => e.status == HealthStatus.down)).map (fun e => e.url)))
           actionUrl := none }]
       else []) :=
  ⟨rfl, rfl,
    (runSilentHealthCheck_fault_acts_healthy _ _ "proj").1 rfl,
    (runSilentHealthCheck_fault_acts_healthy _ _ "proj").2 rfl⟩

/-- The overallStatus slot of the composed briefing is exactly the vote
derivation applied to the three settled status-bearing sources. -/
theorem runMorningBriefing_overallStatus
    (pu : PromiseSettled (ToolResult (List UptimeData)))
    (ps : PromiseSettled (ToolResult SupabaseData))
    (pse : PromiseSettled (ToolResult SentryData))
    (pr : PromiseSettled (ToolResult RailwayData))
    (pe : PromiseSettled (ToolResult EmailData)) (ts org : String) :
    (runMorningBriefing pu ps pse pr pe ts org).overallStatus =
      overallFromVotes (uptimeVote (getResult pu)) (supabaseVote (getResult ps))
        (railwayVote (getResult pr)) := rfl

/-- The alerts slot of the composed briefing is the concatenation of the
sentry rule and the silent-shops rule. -/
theorem runMorningBriefing_alerts
    (pu : PromiseSettled (ToolResult (List UptimeData)))
    (ps : PromiseSettled (ToolResult SupabaseData))
    (pse : PromiseSettled (ToolResult SentryData))
    (pr : PromiseSettled (ToolResult RailwayData))
    (pe : PromiseSettled (ToolResult EmailData)) (ts org : String) :
    (runMorningBriefing pu ps pse pr pe ts org).alerts =
      sentryAlertList (getResult pse) org ++ supabaseAlertList (getResult ps) := rfl

/-- The vote derivation always lands in one of the three overall statuses. -/
theorem overallFromVotes_cases :
    ∀ uv sv rv : HealthStatus,
      overallFromVotes uv sv rv = HealthStatus.down ∨
      overallFromVotes uv sv rv = HealthStatus.degraded ∨
      overallFromVotes uv sv rv = HealthStatus.healthy := by decide

/-- A down supabase vote dominates the derivation. -/
theorem overallFromVotes_down_supabase :
    ∀ uv rv : HealthStatus, overallFromVotes uv HealthStatus.down rv = HealthStatus.down := by
  decide

/-- Closed form of the vote derivation whenever the first vote is not down,
which is always the case for the uptime vote. -/
theorem overallFromVotes_characterize :
    ∀ uv sv rv : HealthStatus, uv ≠ HealthStatus.down →
      overallFromVotes uv sv rv =
        (if sv = HealthStatus.down ∨ rv = HealthStatus.down then HealthStatus.down
         else if uv = HealthStatus.degraded ∨ sv = HealthStatus.degraded
            ∨ rv = HealthStatus.degraded then HealthStatus.degraded
         else HealthStatus.healthy) := by decide

/-- The uptime vote is healthy or degraded, never down. -/
theorem uptimeVote_ne_down (r : SettledResult (List UptimeData)) :
    uptimeVote r ≠ HealthStatus.down := by
  obtain ⟨s, d, e⟩ := r
  cases d with
  | none => simp [uptimeVote]
  | some ds =>
    simp only [uptimeVote]
    split <;> simp

/-- C1 counterexample. A full cycle whose uptime envelope succeeded and
contains a down endpoint, while supabase and railway both report healthy,
derives overallStatus degraded — not down as the claim requires: the uptime
source can only ever vote healthy or degraded. -/
theorem overallStatus_uptime_down_gives_degraded :
    (runMorningBriefing
      (.fulfilled
        { tool := "uptime", success := true, timestamp := "t"
          data := [{ url := "https://api.crimsonforge.pro/health", status := HealthStatus.down
                     responseMs := none, statusCode := none }]
          error := none })
      (.fulfilled
        { tool := "supabase", success := true, timestamp := "t"
          data := { connectionStatus := HealthStatus.healthy, totalShops := 1
                    activeShopsLast24h := 1, ticketsCreatedLast24h := 0
                    aiSessionsLast24h := 0, silentShops := [] }
          error := none })
      (.fulfilled
        { tool := "sentry", success := true, timestamp := "t"
          data := { newIssueCount := 0, unresolvedCount := 0, recentIssues := [] }
          error := none })
      (.fulfilled
        { tool := "railway", success := true, timestamp := "t"
          data := { status := HealthStatus.healthy, latestDeploymentStatus := some "SUCCESS"
                    latestDeploymentAt := some "2026-02-24T08:00:00Z" }
          error := none })
      (.fulfilled
        { tool := "email", success := false, timestamp := "t"
          data := { status := HealthStatus.unknown, unreadCount := 0, lastCheckAt := "t" }
          error := some "Email check not yet implemented" })
      "t" "org").overallStatus = HealthStatus.degraded := by decide

/-- C1 amended. Status precedence as the code implements it: the uptime
source votes healthy when every endpoint in its payload is healthy and
degraded otherwise (never down); overallStatus is down exactly when the
supabase or railway vote is down, else degraded when any vote is degraded,
else healthy. -/
theorem overallStatus_precedence
    (pu : PromiseSettled (ToolResult (List UptimeData)))
    (ps : PromiseSettled (ToolResult SupabaseData))
    (pse : PromiseSettled (ToolResult SentryData))
    (pr : PromiseSettled (ToolResult RailwayData))
    (pe : PromiseSettled (ToolResult EmailData)) (ts org : String) :
    uptimeVote (getResult pu) ≠ HealthStatus.down ∧
    (runMorningBriefing pu ps pse pr pe ts org).overallStatus =
      (if supabaseVote (getResult ps) = HealthStatus.down
          ∨ railwayVote (getResult pr) = HealthStatus.down then HealthStatus.down
       else if uptimeVote (getResult pu) = HealthStatus.degraded
          ∨ supabaseVote (getResult ps) = HealthStatus.degraded
          ∨ railwayVote (getResult pr) = HealthStatus.degraded then HealthStatus.degraded
       else HealthStatus.healthy) :=
  ⟨uptimeVote_ne_down _,
   (runMorningBriefing_overallStatus pu ps pse pr pe ts org).trans
     (overallFromVotes_characterize _ _ _ (uptimeVote_ne_down _))⟩

/-- C2 counterexample. A supabase adapter whose own check faulted returns
success false but a payload with connectionStatus down, and that payload
alone drives overallStatus to down even when uptime and railway are fully
healthy; dually, a faulted uptime adapter returns an empty payload whose
every-endpoint-healthy test vacuously passes, so it counts as a healthy
vote and the cycle derives overallStatus healthy. -/
theorem faulted_sources_still_vote :
    (runSupabaseCheck (.error { isError := true, message := "Database connection failed: timeout" })
      "t").success = false
    ∧ (runMorningBriefing
        (.fulfilled
          { tool := "uptime", success := true, timestamp := "t"
            data := [{ url := "https://crimsonforge.pro", status := HealthStatus.healthy
                       responseMs := some 90, statusCode := some 200 }]
            error := none })
        (.fulfilled (runSupabaseCheck
          (.error { isError := true, message := "Database connection failed: timeout" }) "t"))
        (.fulfilled
          { tool := "sentry", success := true, timestamp := "t"
            data := { newIssueCount := 0, unresolvedCount := 0, recentIssues := [] }
            error := none })
        (.fulfilled
          { tool := "railway", success := true, timestamp := "t"
            data := { status := HealthStatus.healthy, latestDeploymentStatus := some "SUCCESS"
                      latestDeploymentAt := some "2026-02-24T08:00:00Z" }
            error := none })
        (.fulfilled
          { tool := "email", success := false, timestamp := "t"
            data := { status := HealthStatus.unknown, unreadCount := 0, lastCheckAt := "t" }
            error := some "Email check not yet implemented" })
        "t" "org").overallStatus = HealthStatus.down
    ∧ (runUptimeCheck (.error { isError := true, message := "scheduling fault" }) "t").success = false
    ∧ (runMorningBriefing
        (.fulfilled (runUptimeCheck (.error { isError := true, message := "scheduling fault" }) "t"))
        (.fulfilled
          { tool := "supabase", success := true, timestamp := "t"
            data := { connectionStatus := HealthStatus.healthy, totalShops := 1
                      activeShopsLast24h := 1, ticketsCreatedLast24h := 0
                      aiSessionsLast24h := 0, silentShops := [] }
            error := none })
        (.fulfilled
          { tool := "sentry", success := true, timestamp := "t"
            data := { newIssueCount := 0, unresolvedCount := 0, recentIssues := [] }
            error := none })
        (.fulfilled
          { tool := "railway", success := true, timestamp := "t"
            data := { status := HealthStatus.healthy, latestDeploymentStatus := some "SUCCESS"
                      latestDeploymentAt := some "2026-02-24T08:00:00Z" }
            error := none })
        (.fulfilled
          { tool := "email", success := false, timestamp := "t"
            data := { status := HealthStatus.unknown, unreadCount := 0, lastCheckAt := "t" }
            error := some "Email check not yet implemented" })
        "t" "org").overallStatus = HealthStatus.healthy := by
  refine ⟨rfl, by decide, rfl, by decide⟩

/-- C2 amended. A source whose adapter faulted is not excluded from the
vote: its returned payload still participates. A faulted supabase adapter
votes down (its catch payload carries connectionStatus down) and thereby
alone forces overallStatus down; a faulted uptime adapter votes healthy
(its empty payload passes the every-endpoint-healthy test). Only a source
with no payload at all — a scheduler-level rejection — votes unknown and is
excluded for supabase and railway, while a rejected uptime slot votes
degraded. -/
theorem indeterminate_source_payload_participates
    (pu : PromiseSettled (ToolResult (List UptimeData)))
    (pse : PromiseSettled (ToolResult SentryData))
    (pr : PromiseSettled (ToolResult RailwayData))
    (pe : PromiseSettled (ToolResult EmailData))
    (e f : JsError) (ts ts2 org : String) :
    supabaseVote (getResult (.fulfilled (runSupabaseCheck (.error e) ts))) = HealthStatus.down
    ∧ (runMorningBriefing pu (.fulfilled (runSupabaseCheck (.error e) ts)) pse pr pe
        ts2 org).overallStatus = HealthStatus.down
    ∧ uptimeVote (getResult (.fulfilled (runUptimeCheck (.error e) ts))) = HealthStatus.healthy
    ∧ supabaseVote (getResult (.rejected f)) = HealthStatus.unknown
    ∧ railwayVote (getResult (.rejected f)) = HealthStatus.unknown
    ∧ uptimeVote (getResult (.rejected f)) = HealthStatus.degraded := by
  refine ⟨rfl, ?_, rfl, rfl, rfl, rfl⟩
  rw [runMorningBriefing_overallStatus]
  exact overallFromVotes_down_supabase _ _

/-- Every alert the sentry rule emits is a sentry-tagged warning. -/
theorem sentryAlertList_no_uptime_critical (r : SettledResult SentryData) (org : String) :
    (sentryAlertList r org).all
      (fun a => a.tool != "uptime" && a.severity != Severity.critical) = true := by
  obtain ⟨s, d, e⟩ := r
  cases d with
  | none => simp [sentryAlertList]
  | some sd =>
    simp only [sentryAlertList]
    split <;> simp

/-- Every alert the silent-shops rule emits is a supabase-tagged info. -/
theorem supabaseAlertList_no_uptime_critical (r : SettledResult SupabaseData) :
    (supabaseAlertList r).all
      (fun a => a.tool != "uptime" && a.severity != Severity.critical) = true := by
  obtain ⟨s, d, e⟩ := r
  simp only [supabaseAlertList]
  split <;> simp

/-- C3 counterexample. A full cycle whose uptime envelope succeeded and
lists a down endpoint, with nothing for the sentry and silent-shops rules
to report, produces an empty alert list: no critical alert for the down
endpoint appears in the briefing. -/
theorem briefing_has_no_down_endpoint_alert :
    (getResult (.fulfilled
      ({ tool := "uptime", success := true, timestamp := "t"
         data := [{ url := "https://api.crimsonforge.pro/health", status := HealthStatus.down
                    responseMs := none, statusCode := none }]
         error := none } : ToolResult (List UptimeData)))).success = true
    ∧ (runMorningBriefing
        (.fulfilled
          { tool := "uptime", success := true, timestamp := "t"
            data := [{ url := "https://api.crimsonforge.pro/health", status := HealthStatus.down
                       responseMs := none, statusCode := none }]
            error := none })
        (.fulfilled
          { tool := "supabase", success := true, timestamp := "t"
            data := { connectionStatus := HealthStatus.healthy, totalShops := 1
                      activeShopsLast24h := 1, ticketsCreatedLast24h := 0
                      aiSessionsLast24h := 0, silentShops := [] }
            error := none })
        (.fulfilled
          { tool := "sentry", success := true, timestamp := "t"
            data := { newIssueCount := 0, unresolvedCount := 0, recentIssues := [] }
            error := none })
        (.fulfilled
          { tool := "railway", success := true, timestamp := "t"
            data := { status := HealthStatus.healthy, latestDeploymentStatus := some "SUCCESS"
                      latestDeploymentAt := some "2026-02-24T08:00:00Z" }
            error := none })
        (.fulfilled
          { tool := "email", success := false, timestamp := "t"
            data := { status := HealthStatus.unknown, unreadCount := 0, lastCheckAt := "t" }
            error := some "Email check not yet implemented" })
        "t" "org").alerts = [] := by
  refine ⟨rfl, by decide⟩

/-- C3 amended. The full-cycle alert list never contains an uptime alert
and never a critical alert of any kind: only the sentry warning rule and
the supabase silent-shops info rule feed it. Down endpoints reach the
notifier as a critical alert only on the quick path; in the briefing they
appear inline in the formatted report body. -/
theorem briefing_alerts_never_uptime_critical
    (pu : PromiseSettled (ToolResult (List UptimeData)))
    (ps : PromiseSettled (ToolResult SupabaseData))
    (pse : PromiseSettled (ToolResult SentryData))
    (pr : PromiseSettled (ToolResult RailwayData))
    (pe : PromiseSettled (ToolResult EmailData)) (ts org : String) :
    ((runMorningBriefing pu ps pse pr pe ts org).alerts.all
      (fun a => a.tool != "uptime" && a.severity != Severity.critical)) = true := by
  rw [runMorningBriefing_alerts, List.all_append]
  rw [sentryAlertList_no_uptime_critical, supabaseAlertList_no_uptime_critical]
  rfl

/-- C4. Total tolerance: for every combination of settled adapter outcomes,
including rejections outside the envelope contract and envelopes with
success false, the full cycle composes a briefing whose five slots are
exactly the settled envelopes and whose overall status is one of down,
degraded and healthy — a report is always produced and handed to the
notifier. -/
theorem runMorningBriefing_always_reports
    (pu : PromiseSettled (ToolResult (List UptimeData)))
    (ps : PromiseSettled (ToolResult SupabaseData))
    (pse : PromiseSettled (ToolResult SentryData))
    (pr : PromiseSettled (ToolResult RailwayData))
    (pe : PromiseSettled (ToolResult EmailData)) (ts org : String) :
    (runMorningBriefing pu ps pse pr pe ts org).timestamp = ts
    ∧ (runMorningBriefing pu ps pse pr pe ts org).uptime = getResult pu
    ∧ (runMorningBriefing pu ps pse pr pe ts org).supabase = getResult ps
    ∧ (runMorningBriefing pu ps pse pr pe ts org).sentry = getResult pse
    ∧ (runMorningBriefing pu ps pse pr pe ts org).railway = getResult pr
    ∧ (runMorningBriefing pu ps pse pr pe ts org).email = getResult pe
    ∧ ((runMorningBriefing pu ps pse pr pe ts org).overallStatus = HealthStatus.down
       ∨ (runMorningBriefing pu ps pse pr pe ts org).overallStatus = HealthStatus.degraded
       ∨ (runMorningBriefing pu ps pse pr pe ts org).overallStatus = HealthStatus.healthy) :=
  ⟨rfl, rfl, rfl, rfl, rfl, rfl, by
    rw [runMorningBriefing_overallStatus]
    exact overallFromVotes_cases _ _ _⟩

/-- The envelope contract of the spec: success false exactly when a
non-empty failure reason is present, and success true carries no reason. -/
def envelopeInvariant {T : Type} (r : ToolResult T) : Prop :=
  (r.success = false ↔ ∃ m, r.error = some m ∧ m ≠ "")
  ∧ (r.success = true → r.error = none)

/-- Environmental side condition: the fault carried by an outcome converts
to a non-empty message (true of every fault the adapters can actually
catch: fetch rejections, abort errors and query exceptions all carry
non-empty messages, and non-Error throwables convert to a fixed literal). -/
def faultMessageNonempty {α : Type} : Except JsError α → Bool
  | .error e => adapterErrMessage e != ""
  | .ok _ => true

/-- A success envelope with no error field satisfies the contract. -/
theorem envelopeInvariant_of_success {T : Type} (r : ToolResult T)
    (h1 : r.success = true) (h2 : r.error = none) : envelopeInvariant r := by
  constructor
  · rw [h1, h2]
    simp
  · intro _
    exact h2

/-- A failure envelope with a non-empty reason satisfies the contract. -/
theorem envelopeInvariant_of_failure {T : Type} (r : ToolResult T) (m : String)
    (h1 : r.success = false) (h2 : r.error = some m) (h3 : m ≠ "") :
    envelopeInvariant r := by
  constructor
  · constructor
    · intro _
      exact ⟨m, h2, h3⟩
    · intro _
      exact h1
  · intro hc
    simp [h1] at hc

/-- C8. Envelope invariant: whenever the faults an adapter catches convert
to non-empty messages, every envelope any adapter run produces has success
false exactly when a non-empty failure reason is set, and success true
envelopes carry no reason — covering the uptime, supabase, sentry, email
and both railway revisions. -/
theorem adapters_satisfy_envelope_invariant
    (uo : Except JsError (List EndpointOutcome))
    (so : Except JsError SupabaseMetrics)
    (ro : Except JsError Railway2.FetchOutcome)
    (r1 : Railway1.FetchOutcome)
    (ni ui : List SentryIssueRaw) (cfg : EmailConfig) (ts : String)
    (hu : faultMessageNonempty uo = true)
    (hs : faultMessageNonempty so = true)
    (hr : faultMessageNonempty ro = true) :
    envelopeInvariant (runUptimeCheck uo ts)
    ∧ envelopeInvariant (runSupabaseCheck so ts)
    ∧ envelopeInvariant (runSentryCheck ni ui ts)
    ∧ envelopeInvariant (Railway1.runRailwayCheck r1 ts)
    ∧ envelopeInvariant (Railway2.runRailwayCheck ro ts)
    ∧ envelopeInvariant (runEmailCheck cfg ts) := by
  refine ⟨?_, ?_, ?_, ?_, ?_, ?_⟩
  · cases uo with
    | ok eps => exact envelopeInvariant_of_success _ rfl rfl
    | error e =>
      refine envelopeInvariant_of_failure _ (adapterErrMessage e) rfl rfl ?_
      simpa [faultMessageNonempty] using hu
  · cases so with
    | ok m => exact envelopeInvariant_of_success _ rfl rfl
    | error e =>
      refine envelopeInvariant_of_failure _ (adapterErrMessage e) rfl rfl ?_
      simpa [faultMessageNonempty] using hs
  · exact envelopeInvariant_of_success _ rfl rfl
  · exact envelopeInvariant_of_success _ rfl rfl
  · cases ro with
    | ok r => exact envelopeInvariant_of_success _ rfl rfl
    | error e =>
      refine envelopeInvariant_of_failure _ (adapterErrMessage e) rfl rfl ?_
      simpa [faultMessageNonempty] using hr
  · unfold runEmailCheck
    split
    · exact envelopeInvariant_of_failure _ _ rfl rfl (by decide)
    · exact envelopeInvariant_of_failure _ _ rfl rfl (by decide)

/-- Witness for C8 at concrete fault outcomes, including a non-Error
throwable whose reason falls back to the fixed literal. -/
theorem adapters_satisfy_envelope_invariant_witness :
    faultMessageNonempty
      (Except.error { isError := true, message := "network timeout" } :
        Except JsError (List EndpointOutcome)) = true
    ∧ faultMessageNonempty
        (Except.error { isError := true, message := "Database connection failed: timeout" } :
          Except JsError SupabaseMetrics) = true
    ∧ faultMessageNonempty
        (Except.error { isError := false, message := "" } :
          Except JsError Railway2.FetchOutcome) = true
    ∧ (envelopeInvariant
        (runUptimeCheck (.error { isError := true, message := "network timeout" }) "t")
       ∧ envelopeInvariant
          (runSupabaseCheck
            (.error { isError := true, message := "Database connection failed: timeout" }) "t")
       ∧ envelopeInvariant (runSentryCheck [] [] "t")
       ∧ envelopeInvariant
          (Railway1.runRailwayCheck (.thrown { isError := true, message := "fetch failed" }) "t")
       ∧ envelopeInvariant
          (Railway2.runRailwayCheck (.error { isError := false, message := "" }) "t")
       ∧ envelopeInvariant
          (runEmailCheck { imapHost := none, imapUser := none, imapPass := none } "t")) :=
  ⟨by decide, by decide, by decide,
    adapters_satisfy_envelope_invariant _ _ _
      (.thrown { isError := true, message := "fetch failed" }) [] []
      { imapHost := none, imapUser := none, imapPass := none } "t"
      (by decide) (by decide) (by decide)⟩

/-- C9. Uptime retry: one attempt is made, and only when it throws is a
single retry consulted. A successful first attempt is returned untouched;
a failed first attempt followed by a successful retry returns exactly the
second attempt and the envelope wrapping the endpoint results is a success,
so the first failure is invisible to the caller; only when both attempts
throw is the endpoint classified down. -/
theorem checkEndpoint_retry_once (url : String) (a : HttpResponse × Nat)
    (b : Option (HttpResponse × Nat)) (res : HttpResponse) (t : Nat)
    (eps : List EndpointOutcome) (ts : String) :
    checkEndpoint { url := url, first := some a, second := b } = pingEndpoint url a.1 a.2
    ∧ checkEndpoint { url := url, first := none, second := some (res, t) } = pingEndpoint url res t
    ∧ checkEndpoint { url := url, first := none, second := none } =
        { url := url, status := HealthStatus.down, responseMs := none, statusCode := none }
    ∧ runUptimeCheck (.ok eps) ts =
        { tool := "uptime", success := true, timestamp := ts
          data := eps.map checkEndpoint, error := none } := by
  obtain ⟨r1, t1⟩ := a
  exact ⟨rfl, rfl, rfl, rfl⟩

/-- C10 counterexample. In the first railway revision a thrown fetch fault
is caught inside fetchRailwayStatus and surfaces as an envelope with
success true, payload status down and no failure reason — not as the
success false envelope the claim requires. -/
theorem railway_fetch_fault_reported_ok_down :
    (Railway1.runRailwayCheck (.thrown { isError := true, message := "fetch failed" }) "t").success = true
    ∧ (Railway1.runRailwayCheck (.thrown { isError := true, message := "fetch failed" })
        "t").data.status = HealthStatus.down
    ∧ (Railway1.runRailwayCheck (.thrown { isError := true, message := "fetch failed" })
        "t").error = none :=
  ⟨rfl, rfl, rfl⟩

/-- C10 amended. Fault conversion as the railway adapter implements it: in
the second revision a thrown fault yields success false with the converted
reason and payload status unknown, while the non-throwing monitoring faults
(HTTP error, unparsable body, GraphQL errors) yield success true with
payload status unknown and no reason; in the first revision every caught
fault yields success true with payload status down and no reason. -/
theorem railway_fault_conversion (e : JsError) (ts : String) (st : Nat)
    (body : String) (msgs : List String) :
    (Railway2.runRailwayCheck (.error e) ts).success = false
    ∧ (Railway2.runRailwayCheck (.error e) ts).error = some (adapterErrMessage e)
    ∧ (Railway2.runRailwayCheck (.error e) ts).data.status = HealthStatus.unknown
    ∧ Railway2.runRailwayCheck (.ok (.httpError st body)) ts =
        { tool := "railway", success := true, timestamp := ts
          data := { status := HealthStatus.unknown, latestDeploymentStatus := none
                    latestDeploymentAt := none }
          error := none }
    ∧ Railway2.runRailwayCheck (.ok (.parseError body)) ts =
        { tool := "railway", success := true, timestamp := ts
          data := { status := HealthStatus.unknown, latestDeploymentStatus := none
                    latestDeploymentAt := none }
          error := none }
    ∧ Railway2.runRailwayCheck (.ok (.graphqlErrors msgs)) ts =
        { tool := "railway", success := true, timestamp := ts
          data := { status := HealthStatus.unknown, latestDeploymentStatus := none
                    latestDeploymentAt := none }
          error := none }
    ∧ Railway1.runRailwayCheck (.thrown e) ts =
        { tool := "railway", success := true, timestamp := ts
          data := { status := HealthStatus.down, latestDeploymentStatus := none
                    latestDeploymentAt := none }
          error := none } :=
  ⟨rfl, rfl, rfl, rfl, rfl, rfl, rfl⟩
